import Mathlib

/-!
Verification development for the fuel-invoice processing engine
(`src/app.py`).  The embedding is shallow:

* Regex match results are modelled as `Option`-valued inputs: each
  delivery section carries the optional result of the header sub-pattern
  (docket number, delivery date) and of the data-line sub-pattern
  (fuel type, total litres, unit price, pre-tax amount), exactly the
  groups the two `re.search` calls in `_process_single_invoice` extract.
* Python floats are modelled as exact rationals (`Rat`); the tax factors
  `0.1` and `1.1` become `1/10` and `11/10`.
* Python ints are modelled as `Int` (litre quantities may go negative
  after the shunt subtraction, which the source propagates).
* `f-string` fixed-point rendering (`:.2f`, `:.5f`) is modelled by
  `fmtFixed`, rounding half to even on the exact rational.
* `datetime` values are modelled as day/month/year triples with the
  three `strftime` renderings the source uses.
* Text extraction failure (`extract_text_from_pdf` returning `None`)
  is modelled by an `Option InvoiceText` invoice document.
-/

/-- A calendar date as parsed by `pd.to_datetime` from the invoice text. -/
structure DateD where
  day : Nat
  month : Nat
  year : Nat
deriving DecidableEq, Repr, Inhabited

/-- Zero-pad the decimal rendering of `n` to width `w`. -/
def zeroPad (w : Nat) (n : Nat) : String :=
  let s := toString n
  String.mk (List.replicate (w - s.length) '0') ++ s

/-- Three-letter English month abbreviation, as produced by `strftime` `%b`. -/
def monthAbbr : Nat → String
  | 1 => "Jan" | 2 => "Feb" | 3 => "Mar" | 4 => "Apr" | 5 => "May" | 6 => "Jun"
  | 7 => "Jul" | 8 => "Aug" | 9 => "Sep" | 10 => "Oct" | 11 => "Nov" | 12 => "Dec"
  | _ => ""

/-- `strftime` with format `%#d/%#m/%Y`: day/month/year with no leading
zeros on day or month (the financial-calendar lookup key format). -/
def fmtNoPad (d : DateD) : String :=
  toString d.day ++ "/" ++ toString d.month ++ "/" ++ toString d.year

/-- `strftime` with format `%d/%m/%Y`: zero-padded day/month/year. -/
def fmtPad (d : DateD) : String :=
  zeroPad 2 d.day ++ "/" ++ zeroPad 2 d.month ++ "/" ++ toString d.year

/-- `strftime` with format `%d-%b`: zero-padded day, dash, month abbreviation. -/
def fmtDayMon (d : DateD) : String :=
  zeroPad 2 d.day ++ "-" ++ monthAbbr d.month

/-- Round a rational to the nearest integer, ties to even (the rounding
Python's fixed-point float formatting performs). -/
def roundHalfEven (q : Rat) : Int :=
  let f := q.floor
  let frac := q - (f : Rat)
  if frac < 1/2 then f
  else if 1/2 < frac then f + 1
  else if f % 2 = 0 then f else f + 1

/-- Fixed-point rendering with `prec` digits after the decimal point,
modelling Python `f-string` formatting of a number. -/
def fmtFixed (prec : Nat) (x : Rat) : String :=
  let n := roundHalfEven (x * ((10 ^ prec : Nat) : Rat))
  let sign := if n < 0 then "-" else ""
  let a := n.natAbs
  sign ++ toString (a / 10 ^ prec) ++ "." ++ zeroPad prec (a % 10 ^ prec)

/-- Python `f'\x7bx:.2f\x7d'` on the exact rational value. -/
def fmt2 (x : Rat) : String := fmtFixed 2 x

/-- Python `f'\x7bx:.5f\x7d'` on the exact rational value (unit price column). -/
def fmt5 (x : Rat) : String := fmtFixed 5 x

/-- One chunk obtained by splitting the invoice text on the marker
`"Delivery Docket Number / Date:"`, represented by the results of the
two `re.search` calls the loop body performs on it:
`headerMatch` is the anchored header sub-pattern result
(docket number, delivery date) and `dataLineMatch` is the data-line
sub-pattern result (fuel type, total litres, unit price, pre-tax amount). -/
structure RawSection where
  headerMatch : Option (String × DateD)
  dataLineMatch : Option (String × Int × Rat × Rat)
deriving DecidableEq, Repr, Inhabited

/-- A successfully extracted invoice text: the optional invoice-number
match, the optional invoice-date match, and the delivery sections. -/
structure InvoiceText where
  invoiceNoMatch : Option String
  invoiceDateMatch : Option DateD
  sections : List RawSection
deriving DecidableEq, Repr, Inhabited

/-- A fuel-tracking row as first built in the loop, with numeric cost
fields (the dict appended to `fuel_tracking_rows`). -/
structure FuelRow where
  invoice : String
  invoiceDate : String
  exclGst : Rat
  gst : Rat
  inclGst : Rat
  deliveryDate : String
  fyWk : String
  docket : String
  totalLitresQty : Int
  shuntQty : Int
  trailerLitres : Int
  unitPrice : Rat
  shuntCost : Rat
  invoiceDiff : String
  trailerTotal : Rat
  shuntTotal : Rat
  uploadingWk : String
deriving DecidableEq, Repr, Inhabited

/-- A fuel-tracking row after display formatting: the monetary columns
become strings, and the last row's running-total fields are overwritten. -/
structure FuelRowFmt where
  invoice : String
  invoiceDate : String
  exclGst : String
  gst : String
  inclGst : String
  deliveryDate : String
  fyWk : String
  docket : String
  totalLitresQty : Int
  shuntQty : Int
  trailerLitres : Int
  unitPrice : String
  shuntCost : String
  invoiceDiff : String
  trailerTotal : String
  shuntTotal : String
  uploadingWk : String
deriving DecidableEq, Repr, Inhabited

/-- One row of the aggregated ledger data sheet. -/
structure DataSheetRow where
  vendorNameCheck : String
  vendorNo : String
  invoiceNo : String
  invoiceDate : String
  glNo : Nat
  tradeDept : String
  merchDept : String
  store : Nat
  amountLessGst : String
  gstAmount : String
  invoiceTotalInclGst : String
  vendorLineText : String
  storeLineText : String
  comments : String
  weekEnding : String
  weekCountLineText : String
deriving DecidableEq, Repr, Inhabited

/-- The single checklist row produced per invoice. -/
structure ChecklistRow where
  vendor : String
  vendorNo : String
  invoiceNo : String
  excGst : String
  gstAmount : String
  invoiceTotalInclGst : String
deriving DecidableEq, Repr, Inhabited

/-- The run state of the per-section loop in `_process_single_invoice`:
the rows built so far, the two cost accumulators and the last delivery
date seen in a section header. -/
structure LoopState where
  rows : List FuelRow
  totalTrailerCostExclGst : Rat
  totalShuntCostExclGst : Rat
  lastDeliveryDate : Option DateD
deriving DecidableEq, Repr, Inhabited

/-- `shunt_data.get(docket_no, \x7b\x7d).get('shunt_qty', 0)`: lookup in the
shunt dict, defaulting to `0`.  The dict is built by a comprehension in
which a later entry for the same docket number overwrites an earlier
one, so lookup returns the last binding. -/
def shuntGet (m : List (String × Int)) (k : String) : Int :=
  match m.reverse.find? (fun e => e.1 == k) with
  | some e => e.2
  | none => 0

/-- The financial-calendar lookup: select the rows whose `Date` column
equals the key and take the first one's `Week` value, or the empty
string when none matches. -/
def calendarLookup (table : List (String × String)) (key : String) : String :=
  match table.find? (fun e => e.1 == key) with
  | some e => e.2
  | none => ""

/-- `process_files` reformats the calendar's `Date` column with
`strftime('%#d/%#m/%Y')` before any lookup. -/
def prepareCalendar (cal : List (DateD × String)) : List (String × String) :=
  cal.map (fun e => (fmtNoPad e.1, e.2))

/-- The fuel-tracking row dict appended for one section whose header and
data line both matched. -/
def mkFuelRow (ino idate : String) (cal : List (String × String))
    (shunt : List (String × Int)) (docketNo : String) (deliveryDate : DateD)
    (totalLitres : Int) (unitPrice exclGst : Rat) : FuelRow :=
  let shuntQty := shuntGet shunt docketNo
  let trailerLitres := totalLitres - shuntQty
  let shuntCost := (shuntQty : Rat) * unitPrice
  let trailerCost := (trailerLitres : Rat) * unitPrice
  { invoice := ino, invoiceDate := idate, exclGst := exclGst,
    gst := exclGst * (1/10), inclGst := exclGst * (11/10),
    deliveryDate := fmtDayMon deliveryDate,
    fyWk := calendarLookup cal (fmtNoPad deliveryDate),
    docket := docketNo, totalLitresQty := totalLitres, shuntQty := shuntQty,
    trailerLitres := trailerLitres, unitPrice := unitPrice,
    shuntCost := shuntCost, invoiceDiff := "",
    trailerTotal := trailerCost, shuntTotal := shuntCost,
    uploadingWk := "WK 01" }

/-- One iteration of the per-section loop: skip when the header
sub-pattern missed; record the delivery date; when the data line also
matched, append the row and bump both cost accumulators. -/
def sectionStep (ino idate : String) (cal : List (String × String))
    (shunt : List (String × Int)) (st : LoopState) (sec : RawSection) : LoopState :=
  match sec.headerMatch with
  | none => st
  | some (_docketNo, deliveryDate) =>
    let st1 : LoopState := { st with lastDeliveryDate := some deliveryDate }
    match sec.dataLineMatch with
    | none => st1
    | some (_fuelType, totalLitres, unitPrice, exclGst) =>
      let r := mkFuelRow ino idate cal shunt _docketNo deliveryDate totalLitres unitPrice exclGst
      { st1 with
        rows := st1.rows ++ [r]
        totalTrailerCostExclGst := st1.totalTrailerCostExclGst + r.trailerTotal
        totalShuntCostExclGst := st1.totalShuntCostExclGst + r.shuntTotal }

/-- The per-section loop of `_process_single_invoice`. -/
def runSections (ino idate : String) (cal : List (String × String))
    (shunt : List (String × Int)) : LoopState → List RawSection → LoopState
  | st, [] => st
  | st, sec :: rest => runSections ino idate cal shunt (sectionStep ino idate cal shunt st sec) rest

/-- The row a section contributes, if any: `some` exactly when both the
header and the data-line sub-patterns matched. -/
def rowOf (ino idate : String) (cal : List (String × String))
    (shunt : List (String × Int)) (sec : RawSection) : Option FuelRow :=
  match sec.headerMatch with
  | none => none
  | some (docketNo, deliveryDate) =>
    match sec.dataLineMatch with
    | none => none
    | some (_ft, tl, up, eg) => some (mkFuelRow ino idate cal shunt docketNo deliveryDate tl up eg)

/-- A section is valid when both sub-patterns matched. -/
def validSection (s : RawSection) : Bool :=
  s.headerMatch.isSome && s.dataLineMatch.isSome

/-- Apply `f` to the last element of a list, leaving the rest unchanged
(the `df.loc[last_row_index, ...] = ...` overwrite). -/
def overwriteLast (f : α → α) : List α → List α
  | [] => []
  | [x] => [f x]
  | x :: y :: xs => x :: overwriteLast f (y :: xs)

/-- Display formatting of one fuel-tracking row: monetary columns to
two decimals, unit price to five, `INVOICE DIFF` cleared. -/
def fmtFuelRow (r : FuelRow) : FuelRowFmt :=
  { invoice := r.invoice, invoiceDate := r.invoiceDate,
    exclGst := fmt2 r.exclGst, gst := fmt2 r.gst, inclGst := fmt2 r.inclGst,
    deliveryDate := r.deliveryDate, fyWk := r.fyWk, docket := r.docket,
    totalLitresQty := r.totalLitresQty, shuntQty := r.shuntQty,
    trailerLitres := r.trailerLitres, unitPrice := fmt5 r.unitPrice,
    shuntCost := fmt2 r.shuntCost, invoiceDiff := "",
    trailerTotal := fmt2 r.trailerTotal, shuntTotal := fmt2 r.shuntTotal,
    uploadingWk := r.uploadingWk }

/-- The final fuel-tracking aggregation and formatting pass: when the
frame is non-empty, compute the three column sums from the numeric rows,
format every row, then overwrite only the last row's `INVOICE DIFF`,
`Trailer total` and `SHUNT Total` fields with the sums (currency strings
for the two cost sums, the raw integer for the shunt-quantity sum). -/
def finalizeFuel (rows : List FuelRow) : List FuelRowFmt :=
  if rows.isEmpty then []
  else
    let invoiceTotalTrailer := (rows.map FuelRow.trailerTotal).sum
    let invoiceTotalShuntQty := (rows.map FuelRow.shuntQty).sum
    let invoiceTotalExclGst := (rows.map FuelRow.exclGst).sum
    overwriteLast (fun r => { r with
        invoiceDiff := "$" ++ fmt2 invoiceTotalExclGst
        trailerTotal := "$" ++ fmt2 invoiceTotalTrailer
        shuntTotal := toString invoiceTotalShuntQty })
      (rows.map fmtFuelRow)

/-- Vendor identity, a fixed constant in the source. -/
def vendorNameConst : String := "BP AUSTRALIA"

/-- Vendor number, a fixed constant in the source. -/
def vendorNoConst : String := "96029099"

/-- Invoice number: the matched digits, or the placeholder. -/
def invoiceNoOf (t : InvoiceText) : String := t.invoiceNoMatch.getD "Not Found"

/-- Invoice date display string: `%d/%m/%Y`, or the placeholder. -/
def invoiceDateStrOf (t : InvoiceText) : String :=
  match t.invoiceDateMatch with
  | some d => fmtPad d
  | none => "Not Found"

/-- The loop's initial state. -/
def initState : LoopState :=
  { rows := [], totalTrailerCostExclGst := 0, totalShuntCostExclGst := 0,
    lastDeliveryDate := none }

/-- The loop state after processing all of an invoice's sections. -/
def finalStateOf (t : InvoiceText) (cal : List (String × String))
    (shunt : List (String × Int)) : LoopState :=
  runSections (invoiceNoOf t) (invoiceDateStrOf t) cal shunt initState t.sections

/-- The aggregated data-sheet rows for one invoice: always the trailer
row (GL 640520, store 8409), plus the shunt row (GL 432211, store 8682)
when the accumulated shunt cost is strictly positive. -/
def buildDataSheet (vendorName vendorNo invoiceNo invoiceDate : String)
    (cal : List (String × String)) (st : LoopState) : List DataSheetRow :=
  let weekEndingDate := match st.lastDeliveryDate with
    | some d => fmtPad d
    | none => ""
  let weekLookupDate := match st.lastDeliveryDate with
    | some d => fmtNoPad d
    | none => ""
  let fyWk := calendarLookup cal weekLookupDate
  let trailerRow : DataSheetRow :=
    { vendorNameCheck := vendorName, vendorNo := vendorNo,
      invoiceNo := invoiceNo, invoiceDate := invoiceDate,
      glNo := 640520, tradeDept := "", merchDept := "", store := 8409,
      amountLessGst := fmt2 st.totalTrailerCostExclGst,
      gstAmount := fmt2 (st.totalTrailerCostExclGst * (1/10)),
      invoiceTotalInclGst := fmt2 (st.totalTrailerCostExclGst * (11/10)),
      vendorLineText := "",
      storeLineText := vendorName ++ " 8409 " ++ fyWk ++ " BRDC Fuel",
      comments := "BRDC Fuel", weekEnding := weekEndingDate,
      weekCountLineText := fyWk }
  let shuntRow : DataSheetRow :=
    { vendorNameCheck := vendorName, vendorNo := vendorNo,
      invoiceNo := invoiceNo, invoiceDate := invoiceDate,
      glNo := 432211, tradeDept := "", merchDept := "", store := 8682,
      amountLessGst := fmt2 st.totalShuntCostExclGst,
      gstAmount := fmt2 (st.totalShuntCostExclGst * (1/10)),
      invoiceTotalInclGst := fmt2 (st.totalShuntCostExclGst * (11/10)),
      vendorLineText := "",
      storeLineText := vendorName ++ " 8682 " ++ fyWk ++ " BRDC Shunt Fuel",
      comments := "BRDC Shunt Fuel", weekEnding := weekEndingDate,
      weekCountLineText := fyWk }
  if st.totalShuntCostExclGst > 0 then [trailerRow, shuntRow] else [trailerRow]

/-- The per-invoice checklist row, summing trailer and shunt pre-tax cost. -/
def mkChecklist (vendorName vendorNo invoiceNo : String) (st : LoopState) : ChecklistRow :=
  let totalExclGst := st.totalTrailerCostExclGst + st.totalShuntCostExclGst
  { vendor := vendorName, vendorNo := vendorNo, invoiceNo := invoiceNo,
    excGst := fmt2 totalExclGst,
    gstAmount := fmt2 (totalExclGst * (1/10)),
    invoiceTotalInclGst := fmt2 (totalExclGst * (11/10)) }

/-- `_process_single_invoice` on a successfully extracted text: the
data-sheet rows, the checklist row and the formatted fuel-tracking rows. -/
def processSingleInvoice (t : InvoiceText) (cal : List (String × String))
    (shunt : List (String × Int)) :
    List DataSheetRow × ChecklistRow × List FuelRowFmt :=
  let st := finalStateOf t cal shunt
  (buildDataSheet vendorNameConst vendorNoConst (invoiceNoOf t) (invoiceDateStrOf t) cal st,
   mkChecklist vendorNameConst vendorNoConst (invoiceNoOf t) st,
   finalizeFuel st.rows)

/-- The combined output of a processing run. -/
structure BatchResult where
  dataSheet : List DataSheetRow
  checklist : List ChecklistRow
  fuelTracking : List FuelRowFmt
deriving DecidableEq, Repr, Inhabited

/-- `process_files`: fail when no invoice files were supplied; process
each invoice document, skipping those whose text extraction failed
(`None`); fail when no invoice was processed; otherwise concatenate the
per-invoice fragments in processing order. -/
def processFiles (invoiceDocs : List (Option InvoiceText))
    (calRaw : List (DateD × String)) (shuntData : List (String × Int)) :
    Except String BatchResult :=
  if invoiceDocs.isEmpty then Except.error "No invoice files to process."
  else
    let calTable := prepareCalendar calRaw
    let results := invoiceDocs.filterMap (fun d => d.map (fun t => processSingleInvoice t calTable shuntData))
    if results.isEmpty then Except.error "Could not process any invoices."
    else Except.ok
      { dataSheet := (results.map (fun r => r.1)).flatten,
        checklist := results.map (fun r => r.2.1),
        fuelTracking := (results.map (fun r => r.2.2)).flatten }

/-- Spec scenario input: two delivery sections, docket "1001"
(1000 L, unit price 1.50, amount 1500.00) and docket "1002"
(2000 L, unit price 1.50, amount 3000.00). -/
def invC1 : InvoiceText :=
  { invoiceNoMatch := some "12345"
    invoiceDateMatch := some { day := 1, month := 1, year := 2024 }
    sections :=
      [ { headerMatch := some ("1001", { day := 2, month := 1, year := 2024 })
          dataLineMatch := some ("ULSD 10PPM", 1000, 3/2, 1500) },
        { headerMatch := some ("1002", { day := 3, month := 1, year := 2024 })
          dataLineMatch := some ("ULSD 10PPM", 2000, 3/2, 3000) } ] }

/-- Spec scenario shunt record: docket "1001" mapped to shunt quantity 100. -/
def shuntC1 : List (String × Int) := [("1001", 100)]

/-- Single-section invoice whose parsed pre-tax amount (999.99) disagrees
with litres times price (100 times 1.50 = 150). -/
def invC10 : InvoiceText :=
  { invoiceNoMatch := some "777"
    invoiceDateMatch := none
    sections :=
      [ { headerMatch := some ("2001", { day := 4, month := 1, year := 2024 })
          dataLineMatch := some ("Diesel", 100, 3/2, 99999/100) } ] }

/-- An invoice whose invoice-number and invoice-date patterns both miss. -/
def invNoHeader : InvoiceText :=
  { invoiceNoMatch := none, invoiceDateMatch := none, sections := [] }

/-- `roundHalfEven` is the identity on integers. -/
theorem roundHalfEven_intCast (n : ℤ) : roundHalfEven (n : ℚ) = n := by
  have h : ((n : ℚ)).floor = n := by
    rw [Rat.floor_def']; simp
  unfold roundHalfEven
  rw [h]
  norm_num

/-- Evaluate `fmtFixed` when the scaled value is a known integer. -/
theorem fmtFixed_eq_of_mul_eq (prec : Nat) (x : ℚ) (n : ℤ)
    (h : x * ((10 ^ prec : ℕ) : ℚ) = (n : ℚ)) :
    fmtFixed prec x =
      (if n < 0 then "-" else "") ++ toString (n.natAbs / 10 ^ prec) ++ "." ++
        zeroPad prec (n.natAbs % 10 ^ prec) := by
  unfold fmtFixed
  rw [h, roundHalfEven_intCast]

/-- Evaluate `fmt2` when the value scaled by 100 is a known integer. -/
theorem fmt2_eval (x : ℚ) (n : ℤ) (h : x * ((10 ^ 2 : ℕ) : ℚ) = (n : ℚ)) (s : String)
    (hs : (if n < 0 then "-" else "") ++ toString (n.natAbs / 10 ^ 2) ++ "." ++
      zeroPad 2 (n.natAbs % 10 ^ 2) = s) :
    fmt2 x = s := by
  rw [fmt2, fmtFixed_eq_of_mul_eq 2 x n h, hs]

theorem fmt2_zero : fmt2 (0 : ℚ) = "0.00" := fmt2_eval 0 0 (by norm_num) _ (by decide)

theorem fmt2_150 : fmt2 (150 : ℚ) = "150.00" := fmt2_eval 150 15000 (by norm_num) _ (by decide)

theorem fmt2_1350 : fmt2 (1350 : ℚ) = "1350.00" := fmt2_eval 1350 135000 (by norm_num) _ (by decide)

theorem fmt2_3000 : fmt2 (3000 : ℚ) = "3000.00" := fmt2_eval 3000 300000 (by norm_num) _ (by decide)

theorem fmt2_4350 : fmt2 (4350 : ℚ) = "4350.00" := fmt2_eval 4350 435000 (by norm_num) _ (by decide)

theorem fmt2_4500 : fmt2 (4500 : ℚ) = "4500.00" := fmt2_eval 4500 450000 (by norm_num) _ (by decide)

/-- The length of `overwriteLast` equals the input length. -/
theorem length_overwriteLast (f : α → α) : ∀ l : List α, (overwriteLast f l).length = l.length
  | [] => rfl
  | [_] => rfl
  | x :: y :: xs => by
    have ih := length_overwriteLast f (y :: xs)
    simp [overwriteLast, ih]

theorem overwriteLast_ne_nil (f : α → α) (l : List α) (h : l ≠ []) :
    overwriteLast f l ≠ [] := by
  intro hc
  have := length_overwriteLast f l
  rw [hc] at this
  simp at this
  exact h (List.eq_nil_of_length_eq_zero this.symm)

/-- `overwriteLast` leaves all but the last element unchanged. -/
theorem dropLast_overwriteLast (f : α → α) : ∀ l : List α, (overwriteLast f l).dropLast = l.dropLast
  | [] => rfl
  | [_] => rfl
  | x :: y :: xs => by
    have ih := dropLast_overwriteLast f (y :: xs)
    have hne : overwriteLast f (y :: xs) ≠ [] := overwriteLast_ne_nil f _ (by simp)
    rw [overwriteLast, List.dropLast_cons_of_ne_nil hne, ih, List.dropLast_cons₂]

/-- The last element of `overwriteLast f l` is `f` of the last of `l`. -/
theorem getLast?_overwriteLast (f : α → α) : ∀ l : List α, (overwriteLast f l).getLast? = l.getLast?.map f
  | [] => rfl
  | [_] => rfl
  | x :: y :: xs => by
    have ih := getLast?_overwriteLast f (y :: xs)
    obtain ⟨z, zs, hz⟩ : ∃ z zs, overwriteLast f (y :: xs) = z :: zs := by
      cases xs with
      | nil => exact ⟨f y, [], rfl⟩
      | cons w ws => exact ⟨y, _, rfl⟩
    rw [overwriteLast, hz, List.getLast?_cons_cons, ← hz, ih, List.getLast?_cons_cons]

/-- Every element of `overwriteLast f l` is an element of `l` or the image of one. -/
theorem mem_overwriteLast (f : α → α) : ∀ (l : List α) (a : α), a ∈ overwriteLast f l → a ∈ l ∨ ∃ b ∈ l, a = f b
  | [], _, h => by cases h
  | [x], a, h => by
    simp [overwriteLast] at h
    exact Or.inr ⟨x, by simp, h⟩
  | x :: y :: xs, a, h => by
    rw [overwriteLast] at h
    rcases List.mem_cons.mp h with h1 | h2
    · exact Or.inl (by simp [h1])
    · rcases mem_overwriteLast f (y :: xs) a h2 with h3 | ⟨b, hb, hab⟩
      · exact Or.inl (List.mem_cons_of_mem _ h3)
      · exact Or.inr ⟨b, List.mem_cons_of_mem _ hb, hab⟩

/-- One loop step appends exactly the section's contributed row, if any. -/
theorem sectionStep_rows (ino idate : String) (cal : List (String × String))
    (shunt : List (String × Int)) (st : LoopState) (sec : RawSection) :
    (sectionStep ino idate cal shunt st sec).rows =
      st.rows ++ (rowOf ino idate cal shunt sec).toList := by
  rcases sec with ⟨hm, dm⟩
  cases hm with
  | none => simp [sectionStep, rowOf]
  | some p =>
    rcases p with ⟨dk, dt⟩
    cases dm with
    | none => simp [sectionStep, rowOf]
    | some q =>
      rcases q with ⟨ft, tl, up, eg⟩
      simp [sectionStep, rowOf]

/-- The rows produced by the loop: the contributed row of each section, in order. -/
theorem runSections_rows (ino idate : String) (cal : List (String × String))
    (shunt : List (String × Int)) :
    ∀ (secs : List RawSection) (st : LoopState),
      (runSections ino idate cal shunt st secs).rows =
        st.rows ++ secs.filterMap (rowOf ino idate cal shunt)
  | [], st => by simp [runSections]
  | sec :: rest, st => by
    rw [runSections, runSections_rows ino idate cal shunt rest, sectionStep_rows,
      List.filterMap_cons]
    cases h : rowOf ino idate cal shunt sec <;> simp [h]

/-- The trailer-cost accumulator equals the sum of the rows' trailer totals. -/
theorem runSections_totalTrailer (ino idate : String) (cal : List (String × String))
    (shunt : List (String × Int)) :
    ∀ (secs : List RawSection) (st : LoopState),
      (runSections ino idate cal shunt st secs).totalTrailerCostExclGst =
        st.totalTrailerCostExclGst +
          ((secs.filterMap (rowOf ino idate cal shunt)).map FuelRow.trailerTotal).sum
  | [], st => by simp [runSections]
  | sec :: rest, st => by
    rw [runSections, runSections_totalTrailer ino idate cal shunt rest, List.filterMap_cons]
    rcases sec with ⟨hm, dm⟩
    cases hm with
    | none => simp [sectionStep, rowOf]
    | some p =>
      rcases p with ⟨dk, dt⟩
      cases dm with
      | none => simp [sectionStep, rowOf]
      | some q =>
        rcases q with ⟨ft, tl, up, eg⟩
        simp [sectionStep, rowOf, add_assoc]

/-- The shunt-cost accumulator equals the sum of the rows' shunt totals. -/
theorem runSections_totalShunt (ino idate : String) (cal : List (String × String))
    (shunt : List (String × Int)) :
    ∀ (secs : List RawSection) (st : LoopState),
      (runSections ino idate cal shunt st secs).totalShuntCostExclGst =
        st.totalShuntCostExclGst +
          ((secs.filterMap (rowOf ino idate cal shunt)).map FuelRow.shuntTotal).sum
  | [], st => by simp [runSections]
  | sec :: rest, st => by
    rw [runSections, runSections_totalShunt ino idate cal shunt rest, List.filterMap_cons]
    rcases sec with ⟨hm, dm⟩
    cases hm with
    | none => simp [sectionStep, rowOf]
    | some p =>
      rcases p with ⟨dk, dt⟩
      cases dm with
      | none => simp [sectionStep, rowOf]
      | some q =>
        rcases q with ⟨ft, tl, up, eg⟩
        simp [sectionStep, rowOf, add_assoc]

/-- When no section has a header match, the last-delivery-date tracker is untouched. -/
theorem runSections_lastDate_of_no_header (ino idate : String) (cal : List (String × String))
    (shunt : List (String × Int)) :
    ∀ (secs : List RawSection) (st : LoopState), (∀ s ∈ secs, s.headerMatch = none) →
      (runSections ino idate cal shunt st secs).lastDeliveryDate = st.lastDeliveryDate
  | [], st, _ => by simp [runSections]
  | sec :: rest, st, h => by
    rw [runSections]
    have h1 : sec.headerMatch = none := h sec (by simp)
    have h2 : sectionStep ino idate cal shunt st sec = st := by
      rcases sec with ⟨hm, dm⟩
      simp at h1
      subst h1
      simp [sectionStep]
    rw [h2]
    exact runSections_lastDate_of_no_header ino idate cal shunt rest st
      (fun s hs => h s (by simp [hs]))

/-- A section contributes a row exactly when both sub-patterns matched. -/
theorem rowOf_isSome (ino idate : String) (cal : List (String × String))
    (shunt : List (String × Int)) (s : RawSection) :
    (rowOf ino idate cal shunt s).isSome = validSection s := by
  rcases s with ⟨hm, dm⟩
  cases hm <;> cases dm <;> simp [rowOf, validSection]

/-- The structural facts true of every contributed row. -/
theorem rowOf_eq_some_inv (ino idate : String) (cal : List (String × String))
    (shunt : List (String × Int)) (sec : RawSection) (r : FuelRow)
    (h : rowOf ino idate cal shunt sec = some r) :
    r.gst = r.exclGst * (1/10) ∧ r.inclGst = r.exclGst * (11/10) ∧
      r.trailerLitres + r.shuntQty = r.totalLitresQty ∧
      r.shuntCost + r.trailerTotal = (r.totalLitresQty : ℚ) * r.unitPrice ∧
      r.shuntTotal = r.shuntCost ∧ r.invoiceDiff = "" ∧
      r.trailerTotal = (r.trailerLitres : ℚ) * r.unitPrice := by
  rcases sec with ⟨hm, dm⟩
  cases hm with
  | none => simp [rowOf] at h
  | some p =>
    rcases p with ⟨dk, dt⟩
    cases dm with
    | none => simp [rowOf] at h
    | some q =>
      rcases q with ⟨ft, tl, up, eg⟩
      simp [rowOf] at h
      subst h
      refine ⟨rfl, rfl, by simp [mkFuelRow], ?_, rfl, rfl, rfl⟩
      simp only [mkFuelRow]
      push_cast
      ring

/-- `finalizeFuel` is formatting followed by the last-row overwrite. -/
theorem finalizeFuel_eq (rows : List FuelRow) :
    finalizeFuel rows = overwriteLast (fun r => { r with
        invoiceDiff := "$" ++ fmt2 ((rows.map FuelRow.exclGst).sum)
        trailerTotal := "$" ++ fmt2 ((rows.map FuelRow.trailerTotal).sum)
        shuntTotal := toString ((rows.map FuelRow.shuntQty).sum) })
      (rows.map fmtFuelRow) := by
  unfold finalizeFuel
  split
  · next h =>
    rw [List.isEmpty_iff] at h
    subst h
    rfl
  · rfl

/-- The rows of the final loop state, as the sections' contributions. -/
theorem finalState_rows (t : InvoiceText) (cal : List (String × String))
    (shunt : List (String × Int)) :
    (finalStateOf t cal shunt).rows =
      t.sections.filterMap (rowOf (invoiceNoOf t) (invoiceDateStrOf t) cal shunt) := by
  rw [finalStateOf, runSections_rows]
  simp [initState]

/-- Every row of the final loop state satisfies the construction invariants. -/
theorem mem_finalState_rows (t : InvoiceText) (cal : List (String × String))
    (shunt : List (String × Int)) (r : FuelRow) (h : r ∈ (finalStateOf t cal shunt).rows) :
    r.gst = r.exclGst * (1/10) ∧ r.inclGst = r.exclGst * (11/10) ∧
      r.trailerLitres + r.shuntQty = r.totalLitresQty ∧
      r.shuntCost + r.trailerTotal = (r.totalLitresQty : ℚ) * r.unitPrice ∧
      r.shuntTotal = r.shuntCost ∧ r.invoiceDiff = "" ∧
      r.trailerTotal = (r.trailerLitres : ℚ) * r.unitPrice := by
  rw [finalState_rows] at h
  obtain ⟨sec, hsec, hr⟩ := List.mem_filterMap.mp h
  exact rowOf_eq_some_inv _ _ _ _ _ _ hr

/-- The number of rows equals the number of fully matched sections. -/
theorem length_finalState_rows (t : InvoiceText) (cal : List (String × String))
    (shunt : List (String × Int)) :
    (finalStateOf t cal shunt).rows.length = t.sections.countP validSection := by
  rw [finalState_rows, List.length_filterMap_eq_countP]
  simp [rowOf_isSome]

/-- The data sheet of a processed invoice is never empty. -/
theorem buildDataSheet_ne_nil (v n i d : String) (cal : List (String × String))
    (st : LoopState) : buildDataSheet v n i d cal st ≠ [] := by
  unfold buildDataSheet
  dsimp only
  split <;> simp

/-- The data sheet of a processed invoice is never empty. -/
theorem dataSheet_ne_nil (t : InvoiceText) (cal : List (String × String))
    (shunt : List (String × Int)) : (processSingleInvoice t cal shunt).1 ≠ [] :=
  buildDataSheet_ne_nil _ _ _ _ _ _

/-- Every formatted fuel row arises from a numeric row, possibly with the
last-row overwrite applied. -/
theorem mem_fuel_output (t : InvoiceText) (cal : List (String × String))
    (shunt : List (String × Int)) (r : FuelRowFmt)
    (h : r ∈ (processSingleInvoice t cal shunt).2.2) :
    ∃ r0 ∈ (finalStateOf t cal shunt).rows,
      r.exclGst = fmt2 r0.exclGst ∧ r.gst = fmt2 r0.gst ∧ r.inclGst = fmt2 r0.inclGst ∧
      r.totalLitresQty = r0.totalLitresQty ∧ r.shuntQty = r0.shuntQty ∧
      r.trailerLitres = r0.trailerLitres := by
  have h2 : r ∈ finalizeFuel (finalStateOf t cal shunt).rows := h
  rw [finalizeFuel_eq] at h2
  rcases mem_overwriteLast _ _ _ h2 with h3 | ⟨b, hb, hab⟩
  · obtain ⟨r0, hr0, hmap⟩ := List.mem_map.mp h3
    exact ⟨r0, hr0, by subst hmap; simp [fmtFuelRow]⟩
  · obtain ⟨r0, hr0, hmap⟩ := List.mem_map.mp hb
    refine ⟨r0, hr0, ?_⟩
    subst hab
    subst hmap
    simp [fmtFuelRow]

theorem fmt2_1500 : fmt2 (1500 : ℚ) = "1500.00" := fmt2_eval 1500 150000 (by norm_num) _ (by decide)

theorem fmt2_1650 : fmt2 (1650 : ℚ) = "1650.00" := fmt2_eval 1650 165000 (by norm_num) _ (by decide)

theorem fmt2_300 : fmt2 (300 : ℚ) = "300.00" := fmt2_eval 300 30000 (by norm_num) _ (by decide)

theorem fmt2_3300 : fmt2 (3300 : ℚ) = "3300.00" := fmt2_eval 3300 330000 (by norm_num) _ (by decide)

theorem fmt5_threeHalves : fmt5 (3/2 : ℚ) = "1.50000" := by
  rw [fmt5, fmtFixed_eq_of_mul_eq 5 _ 150000 (by norm_num)]
  decide

/-- The numeric rows produced on the spec scenario input. -/
theorem rows_invC1_eval : (finalStateOf invC1 [] shuntC1).rows =
    [mkFuelRow "12345" (fmtPad { day := 1, month := 1, year := 2024 }) [] shuntC1 "1001"
       { day := 2, month := 1, year := 2024 } 1000 (3/2) 1500,
     mkFuelRow "12345" (fmtPad { day := 1, month := 1, year := 2024 }) [] shuntC1 "1002"
       { day := 3, month := 1, year := 2024 } 2000 (3/2) 3000] := by
  rw [finalState_rows]
  simp [invC1, rowOf, invoiceNoOf, invoiceDateStrOf]

theorem shuntGet_C1_1001 : shuntGet shuntC1 "1001" = 100 := by decide

theorem shuntGet_C1_1002 : shuntGet shuntC1 "1002" = 0 := by decide

/-- The formatted fuel-tracking output on the spec scenario input. -/
theorem fuel_invC1_eval : (processSingleInvoice invC1 [] shuntC1).2.2 =
    [{ invoice := "12345", invoiceDate := "01/01/2024", exclGst := "1500.00",
       gst := "150.00", inclGst := "1650.00", deliveryDate := "02-Jan", fyWk := "",
       docket := "1001", totalLitresQty := 1000, shuntQty := 100, trailerLitres := 900,
       unitPrice := "1.50000", shuntCost := "150.00", invoiceDiff := "",
       trailerTotal := "1350.00", shuntTotal := "150.00", uploadingWk := "WK 01" },
     { invoice := "12345", invoiceDate := "01/01/2024", exclGst := "3000.00",
       gst := "300.00", inclGst := "3300.00", deliveryDate := "03-Jan", fyWk := "",
       docket := "1002", totalLitresQty := 2000, shuntQty := 0, trailerLitres := 2000,
       unitPrice := "1.50000", shuntCost := "0.00", invoiceDiff := "$4500.00",
       trailerTotal := "$4350.00", shuntTotal := "100", uploadingWk := "WK 01" }] := by
  show finalizeFuel (finalStateOf invC1 [] shuntC1).rows = _
  rw [rows_invC1_eval, finalizeFuel_eq]
  simp only [List.map_cons, List.map_nil, List.sum_cons, List.sum_nil]
  simp only [mkFuelRow, fmtFuelRow, overwriteLast, shuntGet_C1_1001, shuntGet_C1_1002, calendarLookup]
  norm_num
  simp only [fmt2_150, fmt2_1500, fmt2_1650, fmt2_1350, fmt2_zero, fmt2_3000, fmt2_300,
    fmt2_3300, fmt2_4350, fmt2_4500, fmt5_threeHalves]
  decide

theorem totalTrailer_invC1 : (finalStateOf invC1 [] shuntC1).totalTrailerCostExclGst = 4350 := by
  simp +decide [finalStateOf, invC1, shuntC1, runSections, sectionStep, mkFuelRow, initState, shuntGet]
  norm_num

theorem totalShunt_invC1 : (finalStateOf invC1 [] shuntC1).totalShuntCostExclGst = 150 := by
  simp +decide [finalStateOf, invC1, shuntC1, runSections, sectionStep, mkFuelRow, initState, shuntGet]
  norm_num

/-- The data-sheet output on the spec scenario input, key columns. -/
theorem dataSheet_invC1_eval : (processSingleInvoice invC1 [] shuntC1).1.map
    (fun r => (r.glNo, r.store, r.amountLessGst)) =
    [(640520, 8409, "4350.00"), (432211, 8682, "150.00")] := by
  show (buildDataSheet vendorNameConst vendorNoConst (invoiceNoOf invC1) (invoiceDateStrOf invC1)
    [] (finalStateOf invC1 [] shuntC1)).map _ = _
  unfold buildDataSheet
  dsimp only
  simp [totalTrailer_invC1, totalShunt_invC1, fmt2_4350, fmt2_150,
    show (0:ℚ) < 150 from by norm_num]

/-- Claim C1: on the two-docket scenario with shunt record 1001 to 100,
the aggregator yields row 1 trailer litres 900 and trailer cost 1350,
row 2 trailer litres 2000 and trailer cost 3000, a data-sheet trailer
row with pre-tax amount 4350.00 and a shunt row with 150.00. -/
theorem claim_C1 :
    ((finalStateOf invC1 [] shuntC1).rows.map
      (fun r => (r.trailerLitres, r.trailerTotal))) = [(900, 1350), (2000, 3000)] ∧
    ((processSingleInvoice invC1 [] shuntC1).1.map
      (fun r => (r.glNo, r.store, r.amountLessGst))) =
      [(640520, 8409, "4350.00"), (432211, 8682, "150.00")] := by
  refine ⟨?_, dataSheet_invC1_eval⟩
  rw [rows_invC1_eval]
  simp [mkFuelRow, shuntGet_C1_1001, shuntGet_C1_1002]
  norm_num

/-- Claim C2 as stated is false: earlier rows keep per-row formatted
trailer and shunt totals, which are not blank. -/
theorem claim_C2_counterexample :
    ¬ (∀ r ∈ (processSingleInvoice invC1 [] shuntC1).2.2.dropLast,
        r.invoiceDiff = "" ∧ r.trailerTotal = "" ∧ r.shuntTotal = "") := by
  rw [fuel_invC1_eval]
  decide

/-- Claim C2, amended: N rows; the three sums land only in the last
row's fields; earlier rows have blank invoice-diff but keep their
per-row formatted values. -/
theorem claim_C2 (t : InvoiceText) (cal : List (String × String)) (shunt : List (String × Int)) :
    ((processSingleInvoice t cal shunt).2.2.length = t.sections.countP validSection) ∧
    ((processSingleInvoice t cal shunt).2.2.dropLast =
      ((finalStateOf t cal shunt).rows.dropLast).map fmtFuelRow) ∧
    (∀ r ∈ (processSingleInvoice t cal shunt).2.2.dropLast, r.invoiceDiff = "") ∧
    ((finalStateOf t cal shunt).rows ≠ [] →
      ∃ r, (processSingleInvoice t cal shunt).2.2.getLast? = some r ∧
        r.invoiceDiff = "$" ++ fmt2 (((finalStateOf t cal shunt).rows.map FuelRow.exclGst).sum) ∧
        r.trailerTotal = "$" ++ fmt2 (((finalStateOf t cal shunt).rows.map FuelRow.trailerTotal).sum) ∧
        r.shuntTotal = toString (((finalStateOf t cal shunt).rows.map FuelRow.shuntQty).sum)) := by
  have hfuel : (processSingleInvoice t cal shunt).2.2 = finalizeFuel (finalStateOf t cal shunt).rows := rfl
  rw [hfuel, finalizeFuel_eq]
  refine ⟨?_, ?_, ?_, ?_⟩
  · rw [length_overwriteLast, List.length_map, length_finalState_rows]
  · rw [dropLast_overwriteLast]
    exact (List.map_dropLast _ _).symm
  · intro r hr
    rw [dropLast_overwriteLast, ← List.map_dropLast] at hr
    obtain ⟨r0, hr0, hmap⟩ := List.mem_map.mp hr
    rw [← hmap]
    rfl
  · intro hne
    obtain ⟨r0, hr0⟩ := Option.isSome_iff_exists.mp (List.getLast?_isSome.mpr hne)
    rw [getLast?_overwriteLast, List.getLast?_map, hr0]
    exact ⟨_, rfl, rfl, rfl, rfl⟩

/-- Witness for claim C2 on the spec scenario input. -/
theorem claim_C2_witness :
    ∃ r, (processSingleInvoice invC1 [] shuntC1).2.2.getLast? = some r ∧
      r.invoiceDiff = "$" ++ fmt2 (((finalStateOf invC1 [] shuntC1).rows.map FuelRow.exclGst).sum) ∧
      r.trailerTotal = "$" ++ fmt2 (((finalStateOf invC1 [] shuntC1).rows.map FuelRow.trailerTotal).sum) ∧
      r.shuntTotal = toString (((finalStateOf invC1 [] shuntC1).rows.map FuelRow.shuntQty).sum) :=
  (claim_C2 invC1 [] shuntC1).2.2.2 (by rw [rows_invC1_eval]; simp)

/-- Claim C3: exactly one trailer row, and a shunt row iff the
aggregate shunt cost is strictly positive. -/
theorem claim_C3 (t : InvoiceText) (cal : List (String × String)) (shunt : List (String × Int)) :
    ((processSingleInvoice t cal shunt).1.countP
      (fun r => r.glNo == 640520 && r.store == 8409) = 1) ∧
    ((∃ r ∈ (processSingleInvoice t cal shunt).1, r.glNo = 432211 ∧ r.store = 8682) ↔
      (finalStateOf t cal shunt).totalShuntCostExclGst > 0) := by
  have hds : (processSingleInvoice t cal shunt).1 = buildDataSheet vendorNameConst vendorNoConst
      (invoiceNoOf t) (invoiceDateStrOf t) cal (finalStateOf t cal shunt) := rfl
  have hcount : ∀ l : List DataSheetRow,
      l.countP (fun r => r.glNo == 640520 && r.store == 8409) =
        (l.map (fun r => (r.glNo, r.store))).countP
          (fun q => q.1 == 640520 && q.2 == 8409) := by
    intro l
    induction l with
    | nil => rfl
    | cons a as ih => simp [List.countP_cons, ih]
  have hmap : (buildDataSheet vendorNameConst vendorNoConst (invoiceNoOf t) (invoiceDateStrOf t)
      cal (finalStateOf t cal shunt)).map (fun r => (r.glNo, r.store)) =
      if (finalStateOf t cal shunt).totalShuntCostExclGst > 0 then
        [(640520, 8409), (432211, 8682)] else [(640520, 8409)] := by
    unfold buildDataSheet
    dsimp only
    by_cases h : (finalStateOf t cal shunt).totalShuntCostExclGst > 0
    · rw [if_pos h, if_pos h]
      rfl
    · rw [if_neg h, if_neg h]
      rfl
  rw [hds]
  constructor
  · rw [hcount, hmap]
    by_cases h : (finalStateOf t cal shunt).totalShuntCostExclGst > 0
    · rw [if_pos h]
      rfl
    · rw [if_neg h]
      rfl
  · unfold buildDataSheet
    dsimp only
    by_cases h : (finalStateOf t cal shunt).totalShuntCostExclGst > 0
    · rw [if_pos h]
      simp [h]
    · rw [if_neg h]
      simp [h]

/-- Witness for claim C3 on the spec scenario input. -/
theorem claim_C3_witness :
    (processSingleInvoice invC1 [] shuntC1).1.countP
      (fun r => r.glNo == 640520 && r.store == 8409) = 1 :=
  (claim_C3 invC1 [] shuntC1).1

/-- Claim C6: a section with no header match leaves the loop state
unchanged; a header match with no data-line match only updates the
last-delivery-date tracker. -/
theorem claim_C6 (ino idate : String) (cal : List (String × String))
    (shunt : List (String × Int)) (st : LoopState) (dk : String) (dt : DateD)
    (dl : Option (String × Int × ℚ × ℚ)) :
    sectionStep ino idate cal shunt st { headerMatch := none, dataLineMatch := dl } = st ∧
    sectionStep ino idate cal shunt st
        { headerMatch := some (dk, dt), dataLineMatch := none } =
      { st with lastDeliveryDate := some dt } := by
  constructor <;> rfl

/-- Claim C8: trailer litres plus shunt quantity equals total litres in
every fuel-tracking row. -/
theorem claim_C8 (t : InvoiceText) (cal : List (String × String)) (shunt : List (String × Int)) :
    ∀ r ∈ (processSingleInvoice t cal shunt).2.2,
      r.trailerLitres + r.shuntQty = r.totalLitresQty := by
  intro r hr
  obtain ⟨r0, hr0, _, _, _, h4, h5, h6⟩ := mem_fuel_output t cal shunt r hr
  rw [h4, h5, h6]
  exact (mem_finalState_rows t cal shunt r0 hr0).2.2.1

/-- Witness for claim C8 on the first scenario fuel row. -/
theorem claim_C8_witness :
    ((processSingleInvoice invC1 [] shuntC1).2.2.headD default).trailerLitres +
      ((processSingleInvoice invC1 [] shuntC1).2.2.headD default).shuntQty =
      ((processSingleInvoice invC1 [] shuntC1).2.2.headD default).totalLitresQty := by
  have hm : (processSingleInvoice invC1 [] shuntC1).2.2.headD default ∈
      (processSingleInvoice invC1 [] shuntC1).2.2 := by
    rw [fuel_invC1_eval]
    simp
  exact claim_C8 invC1 [] shuntC1 _ hm

/-- Claim C5: the calendar lookup works by exact string equality on the
no-leading-zeros day/month/year rendering; unmatched dates yield the
empty string. -/
theorem claim_C5 (cal : List (DateD × String)) (d : DateD) :
    ((∀ e ∈ cal, fmtNoPad e.1 ≠ fmtNoPad d) →
      calendarLookup (prepareCalendar cal) (fmtNoPad d) = "") ∧
    (calendarLookup (prepareCalendar cal) (fmtNoPad d) = "" ∨
      ∃ e ∈ cal, fmtNoPad e.1 = fmtNoPad d ∧
        calendarLookup (prepareCalendar cal) (fmtNoPad d) = e.2) ∧
    fmtNoPad { day := 5, month := 3, year := 2024 } = "5/3/2024" := by
  refine ⟨?_, ?_, by decide⟩
  · intro h
    have hnone : (prepareCalendar cal).find? (fun e => e.1 == fmtNoPad d) = none := by
      rw [List.find?_eq_none]
      intro e he
      obtain ⟨e0, he0, heq⟩ := List.mem_map.mp he
      rw [← heq]
      simpa using h e0 he0
    unfold calendarLookup
    rw [hnone]
  · cases hfind : (prepareCalendar cal).find? (fun e => e.1 == fmtNoPad d) with
    | none =>
      left
      unfold calendarLookup
      rw [hfind]
    | some e =>
      right
      have hmem := List.mem_of_find?_eq_some hfind
      have hpred := List.find?_some hfind
      obtain ⟨e0, he0, heq⟩ := List.mem_map.mp hmem
      refine ⟨e0, he0, ?_, ?_⟩
      · rw [← heq] at hpred
        simpa using hpred
      · unfold calendarLookup
        rw [hfind, ← heq]

/-- Witness for claim C5: a one-entry table and an unmatched date. -/
theorem claim_C5_witness :
    calendarLookup (prepareCalendar [({ day := 1, month := 2, year := 2024 }, "WK 30")])
      (fmtNoPad { day := 5, month := 3, year := 2024 }) = "" :=
  (claim_C5 [({ day := 1, month := 2, year := 2024 }, "WK 30")]
    { day := 5, month := 3, year := 2024 }).1 (by decide)

/-- Claim C7: in every monetary row, the tax and tax-inclusive strings
are the two-decimal renderings of the pre-tax amount times one tenth and
eleven tenths respectively. -/
theorem claim_C7 (t : InvoiceText) (cal : List (String × String)) (shunt : List (String × Int)) :
    (∀ r ∈ (processSingleInvoice t cal shunt).2.2, ∃ a : ℚ,
      r.exclGst = fmt2 a ∧ r.gst = fmt2 (a * (1/10)) ∧ r.inclGst = fmt2 (a * (11/10))) ∧
    (∀ r ∈ (processSingleInvoice t cal shunt).1, ∃ a : ℚ,
      r.amountLessGst = fmt2 a ∧ r.gstAmount = fmt2 (a * (1/10)) ∧
        r.invoiceTotalInclGst = fmt2 (a * (11/10))) ∧
    (∃ a : ℚ, (processSingleInvoice t cal shunt).2.1.excGst = fmt2 a ∧
      (processSingleInvoice t cal shunt).2.1.gstAmount = fmt2 (a * (1/10)) ∧
      (processSingleInvoice t cal shunt).2.1.invoiceTotalInclGst = fmt2 (a * (11/10))) := by
  refine ⟨?_, ?_, ?_⟩
  · intro r hr
    obtain ⟨r0, hr0, h1, h2, h3, _, _, _⟩ := mem_fuel_output t cal shunt r hr
    obtain ⟨hg, hi, _⟩ := mem_finalState_rows t cal shunt r0 hr0
    exact ⟨r0.exclGst, h1, by rw [h2, hg], by rw [h3, hi]⟩
  · have hds : (processSingleInvoice t cal shunt).1 = buildDataSheet vendorNameConst vendorNoConst
        (invoiceNoOf t) (invoiceDateStrOf t) cal (finalStateOf t cal shunt) := rfl
    rw [hds]
    unfold buildDataSheet
    dsimp only
    intro r hr
    by_cases h : (finalStateOf t cal shunt).totalShuntCostExclGst > 0
    · rw [if_pos h] at hr
      rcases List.mem_cons.mp hr with h1 | h2
      · exact ⟨(finalStateOf t cal shunt).totalTrailerCostExclGst, by rw [h1], by rw [h1], by rw [h1]⟩
      · have h3 : r ∈ [_] := h2
        rw [List.mem_singleton] at h3
        exact ⟨(finalStateOf t cal shunt).totalShuntCostExclGst, by rw [h3], by rw [h3], by rw [h3]⟩
    · rw [if_neg h] at hr
      rw [List.mem_singleton] at hr
      exact ⟨(finalStateOf t cal shunt).totalTrailerCostExclGst, by rw [hr], by rw [hr], by rw [hr]⟩
  · exact ⟨(finalStateOf t cal shunt).totalTrailerCostExclGst +
      (finalStateOf t cal shunt).totalShuntCostExclGst, rfl, rfl, rfl⟩

/-- Witness for claim C7 on the first scenario fuel row. -/
theorem claim_C7_witness : ∃ a : ℚ,
    ((processSingleInvoice invC1 [] shuntC1).2.2.headD default).exclGst = fmt2 a ∧
    ((processSingleInvoice invC1 [] shuntC1).2.2.headD default).gst = fmt2 (a * (1/10)) ∧
    ((processSingleInvoice invC1 [] shuntC1).2.2.headD default).inclGst = fmt2 (a * (11/10)) := by
  have hm : (processSingleInvoice invC1 [] shuntC1).2.2.headD default ∈
      (processSingleInvoice invC1 [] shuntC1).2.2 := by
    rw [fuel_invC1_eval]
    simp
  exact (claim_C7 invC1 [] shuntC1).1 _ hm

/-- The trailer accumulator is the sum of the rows' trailer totals. -/
theorem finalState_totalTrailer (t : InvoiceText) (cal : List (String × String))
    (shunt : List (String × Int)) :
    (finalStateOf t cal shunt).totalTrailerCostExclGst =
      ((finalStateOf t cal shunt).rows.map FuelRow.trailerTotal).sum := by
  rw [finalState_rows]
  rw [finalStateOf, runSections_totalTrailer]
  simp [initState]

/-- The shunt accumulator is the sum of the rows' shunt totals. -/
theorem finalState_totalShunt (t : InvoiceText) (cal : List (String × String))
    (shunt : List (String × Int)) :
    (finalStateOf t cal shunt).totalShuntCostExclGst =
      ((finalStateOf t cal shunt).rows.map FuelRow.shuntTotal).sum := by
  rw [finalState_rows]
  rw [finalStateOf, runSections_totalShunt]
  simp [initState]

/-- A section missing either sub-pattern contributes no row. -/
theorem rowOf_eq_none (ino idate : String) (cal : List (String × String))
    (shunt : List (String × Int)) (sec : RawSection)
    (h : sec.headerMatch = none ∨ sec.dataLineMatch = none) :
    rowOf ino idate cal shunt sec = none := by
  rcases sec with ⟨hm, dm⟩
  rcases h with h | h
  · simp at h
    subst h
    rfl
  · simp at h
    subst h
    cases hm with
    | none => rfl
    | some p => rcases p with ⟨a, b⟩; rfl

/-- The no-leading-zeros date rendering is never the empty string. -/
theorem fmtNoPad_ne_empty (d : DateD) : fmtNoPad d ≠ "" := by
  unfold fmtNoPad
  intro hc
  have hlen := congrArg String.length hc
  rw [String.length_append, String.length_append, String.length_append,
    String.length_append] at hlen
  rw [show ("/" : String).length = 1 from rfl] at hlen
  simp at hlen

/-- Looking up the empty key in a prepared calendar always misses. -/
theorem calendarLookup_empty_key (cal : List (DateD × String)) :
    calendarLookup (prepareCalendar cal) "" = "" := by
  have hnone : (prepareCalendar cal).find? (fun e => e.1 == "") = none := by
    rw [List.find?_eq_none]
    intro e he
    obtain ⟨e0, he0, heq⟩ := List.mem_map.mp he
    rw [← heq]
    simpa using fmtNoPad_ne_empty e0.1
  unfold calendarLookup
  rw [hnone]

/-- Claim C9: with no fully matched section, processing still returns:
no fuel rows, a single trailer data-sheet row with all-zero amounts,
and (when no header parsed at all) empty week fields. -/
theorem claim_C9 (t : InvoiceText) (cal : List (DateD × String)) (shunt : List (String × Int))
    (h : ∀ sec ∈ t.sections, sec.headerMatch = none ∨ sec.dataLineMatch = none) :
    (processSingleInvoice t (prepareCalendar cal) shunt).2.2 = [] ∧
    ((processSingleInvoice t (prepareCalendar cal) shunt).1.map
      (fun r => (r.glNo, r.store, r.amountLessGst, r.gstAmount, r.invoiceTotalInclGst)) =
      [(640520, 8409, "0.00", "0.00", "0.00")]) ∧
    ((∀ sec ∈ t.sections, sec.headerMatch = none) →
      ∀ r ∈ (processSingleInvoice t (prepareCalendar cal) shunt).1,
        r.weekEnding = "" ∧ r.weekCountLineText = "") := by
  have hrows : (finalStateOf t (prepareCalendar cal) shunt).rows = [] := by
    rw [finalState_rows, List.filterMap_eq_nil_iff]
    intro sec hsec
    exact rowOf_eq_none _ _ _ _ sec (h sec hsec)
  have hT : (finalStateOf t (prepareCalendar cal) shunt).totalTrailerCostExclGst = 0 := by
    rw [finalState_totalTrailer, hrows]
    simp
  have hS : (finalStateOf t (prepareCalendar cal) shunt).totalShuntCostExclGst = 0 := by
    rw [finalState_totalShunt, hrows]
    simp
  have hds : (processSingleInvoice t (prepareCalendar cal) shunt).1 =
      buildDataSheet vendorNameConst vendorNoConst (invoiceNoOf t) (invoiceDateStrOf t)
        (prepareCalendar cal) (finalStateOf t (prepareCalendar cal) shunt) := rfl
  refine ⟨?_, ?_, ?_⟩
  · show finalizeFuel (finalStateOf t (prepareCalendar cal) shunt).rows = []
    rw [hrows]
    rfl
  · rw [hds]
    unfold buildDataSheet
    dsimp only
    rw [hT, hS]
    rw [if_neg (by norm_num)]
    simp [fmt2_zero]
  · intro h2 r hr
    have hlast : (finalStateOf t (prepareCalendar cal) shunt).lastDeliveryDate = none := by
      rw [finalStateOf]
      rw [runSections_lastDate_of_no_header _ _ _ _ _ _ h2]
      rfl
    rw [hds] at hr
    unfold buildDataSheet at hr
    dsimp only at hr
    rw [hlast, hS] at hr
    rw [if_neg (by norm_num)] at hr
    rw [List.mem_singleton] at hr
    subst hr
    exact ⟨rfl, calendarLookup_empty_key cal⟩

/-- Witness for claim C9 on an invoice with no sections. -/
theorem claim_C9_witness :
    (processSingleInvoice { invoiceNoMatch := none, invoiceDateMatch := none, sections := [] }
      (prepareCalendar []) []).2.2 = [] ∧
    (∀ r ∈ (processSingleInvoice { invoiceNoMatch := none, invoiceDateMatch := none, sections := [] }
        (prepareCalendar []) []).1, r.weekEnding = "" ∧ r.weekCountLineText = "") := by
  have h := claim_C9 { invoiceNoMatch := none, invoiceDateMatch := none, sections := [] } [] []
    (by simp)
  exact ⟨h.1, h.2.2 (by simp)⟩

/-- Pointwise sums add: if `f x + g x = h x` on a list, the mapped sums agree. -/
theorem sum_map_add_of (l : List FuelRow) (f g h : FuelRow → ℚ)
    (hp : ∀ x ∈ l, f x + g x = h x) :
    (l.map f).sum + (l.map g).sum = (l.map h).sum := by
  induction l with
  | nil => simp
  | cons a as ih =>
    have ih' := ih (fun x hx => hp x (List.mem_cons_of_mem _ hx))
    have ha := hp a (by simp)
    simp only [List.map_cons, List.sum_cons]
    rw [← ih', ← ha]
    ring

theorem fmt2_99999c100 : fmt2 (99999/100 : ℚ) = "999.99" :=
  fmt2_eval _ 99999 (by norm_num) _ (by decide)

theorem totalTrailer_invC10 : (finalStateOf invC10 [] []).totalTrailerCostExclGst = 150 := by
  simp +decide [finalStateOf, invC10, runSections, sectionStep, mkFuelRow, initState, shuntGet]
  norm_num

theorem totalShunt_invC10 : (finalStateOf invC10 [] []).totalShuntCostExclGst = 0 := by
  simp +decide [finalStateOf, invC10, runSections, sectionStep, mkFuelRow, initState, shuntGet]

/-- Claim C10: per row, shunt cost plus trailer cost equals litres times
price; the checklist total is the two-decimal rendering of the sum of
litres times price; on a concrete input this differs from the sum of the
parsed pre-tax amounts. -/
theorem claim_C10 (t : InvoiceText) (cal : List (String × String)) (shunt : List (String × Int)) :
    (∀ r ∈ (finalStateOf t cal shunt).rows,
      r.shuntCost + r.trailerTotal = (r.totalLitresQty : ℚ) * r.unitPrice) ∧
    ((processSingleInvoice t cal shunt).2.1.excGst =
      fmt2 (((finalStateOf t cal shunt).rows.map
        (fun r => (r.totalLitresQty : ℚ) * r.unitPrice)).sum)) ∧
    ((processSingleInvoice invC10 [] []).2.1.excGst = "150.00" ∧
      fmt2 (((invC10.sections.filterMap (fun s => s.dataLineMatch)).map
        (fun q => q.2.2.2)).sum) = "999.99" ∧
      ("150.00" : String) ≠ "999.99") := by
  refine ⟨?_, ?_, ?_, ?_, by decide⟩
  · intro r hr
    exact (mem_finalState_rows t cal shunt r hr).2.2.2.1
  · show (mkChecklist vendorNameConst vendorNoConst (invoiceNoOf t)
      (finalStateOf t cal shunt)).excGst = _
    unfold mkChecklist
    dsimp only
    rw [finalState_totalTrailer, finalState_totalShunt]
    congr 1
    refine sum_map_add_of _ _ _ _ ?_
    intro x hx
    obtain ⟨_, _, _, h4, h5, _, _⟩ := mem_finalState_rows t cal shunt x hx
    rw [h5]
    rw [add_comm]
    exact h4
  · show (mkChecklist vendorNameConst vendorNoConst (invoiceNoOf invC10)
      (finalStateOf invC10 [] [])).excGst = "150.00"
    unfold mkChecklist
    dsimp only
    rw [totalTrailer_invC10, totalShunt_invC10]
    norm_num [fmt2_150]
  · simp only [invC10, List.filterMap_cons, List.filterMap_nil]
    norm_num [fmt2_99999c100]

/-- Witness for claim C10 on the first scenario numeric row. -/
theorem claim_C10_witness :
    ((finalStateOf invC1 [] shuntC1).rows.headD default).shuntCost +
      ((finalStateOf invC1 [] shuntC1).rows.headD default).trailerTotal =
      (((finalStateOf invC1 [] shuntC1).rows.headD default).totalLitresQty : ℚ) *
        ((finalStateOf invC1 [] shuntC1).rows.headD default).unitPrice := by
  have hm : (finalStateOf invC1 [] shuntC1).rows.headD default ∈
      (finalStateOf invC1 [] shuntC1).rows := by
    rw [rows_invC1_eval]
    simp
  exact (claim_C10 invC1 [] shuntC1).1 _ hm

/-- Filtering the present documents then mapping equals mapping under the option. -/
theorem filterMap_option_map {α β : Type} (f : α → β) (l : List (Option α)) :
    l.filterMap (fun d => d.map f) = (l.filterMap id).map f := by
  induction l with
  | nil => rfl
  | cons d rest ih => cases d <;> simp [ih]

/-- Claim C4, amended: the run skips exactly the invoices whose text
extraction failed, concatenates the per-invoice fragments in order, and
errors exactly when no data-sheet rows were produced. -/
theorem claim_C4 (invs : List (Option InvoiceText)) (cal : List (DateD × String))
    (shunt : List (String × Int)) :
    processFiles invs cal shunt =
      (if invs.isEmpty then Except.error "No invoice files to process."
       else if (((invs.filterMap id).map
            (fun t => processSingleInvoice t (prepareCalendar cal) shunt)).map
            (fun r => r.1)).flatten.isEmpty then
         Except.error "Could not process any invoices."
       else Except.ok
         { dataSheet := (((invs.filterMap id).map
              (fun t => processSingleInvoice t (prepareCalendar cal) shunt)).map
              (fun r => r.1)).flatten,
           checklist := ((invs.filterMap id).map
              (fun t => processSingleInvoice t (prepareCalendar cal) shunt)).map
              (fun r => r.2.1),
           fuelTracking := (((invs.filterMap id).map
              (fun t => processSingleInvoice t (prepareCalendar cal) shunt)).map
              (fun r => r.2.2)).flatten }) := by
  unfold processFiles
  dsimp only
  rw [filterMap_option_map]
  have hcond : ((invs.filterMap id).map
      (fun t => processSingleInvoice t (prepareCalendar cal) shunt)).isEmpty =
      (((invs.filterMap id).map
        (fun t => processSingleInvoice t (prepareCalendar cal) shunt)).map
        (fun r => r.1)).flatten.isEmpty := by
    cases hL : (invs.filterMap id).map
        (fun t => processSingleInvoice t (prepareCalendar cal) shunt) with
    | nil => simp
    | cons x xs =>
      have hx : x.1 ≠ [] := by
        have hmem : x ∈ (invs.filterMap id).map
            (fun t => processSingleInvoice t (prepareCalendar cal) shunt) := by
          rw [hL]
          simp
        obtain ⟨t0, _, ht0⟩ := List.mem_map.mp hmem
        rw [← ht0]
        exact dataSheet_ne_nil t0 (prepareCalendar cal) shunt
      simp [hx]
  rw [hcond]

theorem finalState_invNoHeader : finalStateOf invNoHeader [] [] = initState := rfl

theorem dataSheet_invNoHeader : (processSingleInvoice invNoHeader [] []).1.map
    (fun r => (r.invoiceNo, r.glNo)) = [("Not Found", 640520)] := by
  have hds : (processSingleInvoice invNoHeader [] []).1 = buildDataSheet vendorNameConst
      vendorNoConst (invoiceNoOf invNoHeader) (invoiceDateStrOf invNoHeader) []
      (finalStateOf invNoHeader [] []) := rfl
  rw [hds]
  unfold buildDataSheet
  dsimp only
  rw [finalState_invNoHeader]
  rw [if_neg (by norm_num [initState])]
  simp [invoiceNoOf, invNoHeader]

/-- Claim C4 as stated is false: an invoice whose header patterns fail
is not skipped; it is processed and contributes a data-sheet row with
the placeholder invoice number, and the run succeeds. -/
theorem claim_C4_counterexample :
    (processFiles [some invNoHeader] [] []).toOption.map
      (fun b => b.dataSheet.map (fun r => (r.invoiceNo, r.glNo))) =
      some [("Not Found", 640520)] ∧
    (∀ e : String, processFiles [some invNoHeader] [] [] ≠ Except.error e) := by
  have hpf : processFiles [some invNoHeader] [] [] = Except.ok
      { dataSheet := (processSingleInvoice invNoHeader [] []).1,
        checklist := [(processSingleInvoice invNoHeader [] []).2.1],
        fuelTracking := (processSingleInvoice invNoHeader [] []).2.2 } := by
    unfold processFiles
    dsimp only
    rw [if_neg (by simp)]
    have hres : ([some invNoHeader] : List (Option InvoiceText)).filterMap
        (fun d => d.map (fun t => processSingleInvoice t (prepareCalendar []) [])) =
        [processSingleInvoice invNoHeader [] []] := by
      simp [prepareCalendar]
    rw [hres]
    rw [if_neg (by simp)]
    simp
  rw [hpf]
  refine ⟨?_, by simp⟩
  simp [Except.toOption, dataSheet_invNoHeader]
